import Mathlib

/-!
Verification of the BIM question-answering query engine (two router variants
found in the source: "variant A" uses semantic search and a two-stage LLM
pipeline, "variant B" uses one unified analysis call and adds `sum_volume`).

The definitions below are a shallow embedding of the JavaScript source:
JS `null`/`undefined` string fields become `Option String` (with `none` for
null), JS truthiness of a string-or-null value is `jsTruthy`, and the
SQL store is modelled as a list of element rows evaluated against the
parameterized filter clauses the code builds.
-/

/-- JS truthiness of a string-or-null value: `null`, `undefined` and `""`
are falsy, every other string is truthy. -/
def jsTruthy : Option String → Bool
  | none => false
  | some s => s ≠ ""

/-- Model of JS `String.prototype.trim`: drop whitespace from both ends.
(A kernel-computable stand-in for `String.trim`.) -/
def jsTrim (s : String) : String :=
  String.mk (((s.data.dropWhile Char.isWhitespace).reverse.dropWhile
    Char.isWhitespace).reverse)

/-- Model of JS `String.prototype.toLowerCase` (kernel-computable stand-in
for `String.toLower`). -/
def lowerStr (s : String) : String :=
  String.mk (s.data.map Char.toLower)

/-- `leadsWith p l` holds when `p` is an initial segment of `l`. -/
def leadsWith : List Char → List Char → Bool
  | [], _ => true
  | _ :: _, [] => false
  | a :: as, b :: bs => a == b && leadsWith as bs

/-- Source `norm(s)`: `String(s || "").trim()` on a string-or-null value. -/
def norm (s : Option String) : String :=
  jsTrim (s.getD "")

/-- Source `stripEmpty(arr)`: `arr.map(norm).filter(Boolean)` on a list of
(non-null) strings. -/
def stripEmpty (l : List String) : List String :=
  (l.map (fun s => jsTrim s)).filter (fun s => s ≠ "")

/-- The fixed allow-list `ALLOWED_PARAMS` of column names (identical in both
router variants). -/
def ALLOWED_PARAMS : List String :=
  ["level_number", "room_name", "room_type", "system_name", "system_type",
   "manufacturer", "model_name", "type_name", "family_name", "omniclass_title"]

/-- The fixed `SAMPLE_KEYS` list (identical in both variants). -/
def SAMPLE_KEYS : List String :=
  ["level_number", "room_name", "room_type", "system_name", "system_type",
   "manufacturer", "model_name", "omniclass_title", "type_name", "family_name"]

/-- `DEFAULT_LIMIT` (variant A). -/
def DEFAULT_LIMIT : Nat := 20

/-- `DEFAULT_TOP_K` (variant A). -/
def DEFAULT_TOP_K : Nat := 100

/-- A per-element property blob (`props_flat` column). The JS code stores it
as a serialized JSON document; we abstract a document to either a
well-formed object (its key/value pairs) or a malformed document on which
`JSON.parse` throws. -/
inductive PropsBlob
  | wellformed (pairs : List (String × String))
  | malformed
deriving DecidableEq, Repr

/-- One row of the `elements` table. `cols` is the named-column store
(association list; a missing name or an explicit `none` is SQL NULL);
`props_flat` is `none` when the column is NULL or the empty string (both
falsy in the JS `if (!d.props_flat) continue;` guard). -/
structure Element where
  id : Int
  urn : String
  cols : List (String × Option String)
  props_flat : Option PropsBlob
deriving DecidableEq, Repr

/-- Read a named column of an element (SQL NULL as `none`). -/
def getCol (e : Element) (field : String) : Option String :=
  match e.cols.find? (fun p => p.1 == field) with
  | some p => p.2
  | none => none

/-- One WHERE-clause fragment pushed by `runQuery`, tagged by its push site:
the mandatory `urn = ?` scope, the semantic-search `id IN (...)` list, the
category-equality clause `<categoryField> = ?`, and the attribute-equality
clause `<filterParam> = ?`. -/
inductive Clause
  | urnEq
  | idIn (ids : List Int)
  | catEq (field : String)
  | attrEq (field : String)
deriving DecidableEq, Repr

/-- The SQL text of a clause, exactly as the code interpolates it. -/
def clauseSQL : Clause → String
  | .urnEq => "urn = ?"
  | .idIn ids =>
      let inner := String.intercalate "," (ids.map toString)
      s!"id IN ({inner})"
  | .catEq field => s!"{field} = ?"
  | .attrEq field => s!"{field} = ?"

/-- `whereClauses.join(" AND ")`. -/
def whereText (clauses : List Clause) : String :=
  String.intercalate " AND " (clauses.map clauseSQL)

/-- Store semantics of the parameterized filter: evaluate the clause list
against one element row, consuming the bound parameters in clause order
(`urn = ?` and the two equality clauses each bind one parameter; the
`id IN (...)` clause inlines its literals and binds none). `= ?` against a
NULL column is false, as in SQL. -/
def evalClauses : List Clause → List String → Element → Bool
  | [], _, _ => true
  | .urnEq :: cs, p :: ps, e => (e.urn == p) && evalClauses cs ps e
  | .urnEq :: _, [], _ => false
  | .idIn ids :: cs, ps, e => (ids.contains e.id) && evalClauses cs ps e
  | .catEq f :: cs, p :: ps, e => (getCol e f == some p) && evalClauses cs ps e
  | .catEq _ :: _, [], _ => false
  | .attrEq f :: cs, p :: ps, e => (getCol e f == some p) && evalClauses cs ps e
  | .attrEq _ :: _, [], _ => false

/-- The rows of the store matching a compiled filter. -/
def matchingRows (db : List Element) (clauses : List Clause) (params : List String) : List Element :=
  db.filter (evalClauses clauses params)

/-- Insertion-order set insertion (JS `Set.add` / SQL `DISTINCT` model). -/
def insertNew (acc : List String) (x : String) : List String :=
  if x ∈ acc then acc else acc ++ [x]

/-- Deduplicate keeping first occurrences (JS `Set` iteration order /
`SELECT DISTINCT`). -/
def dedupFirst (l : List String) : List String :=
  l.foldl insertNew []

/-- `sublistAt`-style containment: does `pat` occur contiguously in `l`? -/
def containsSub (pat : List Char) : List Char → Bool
  | [] => leadsWith pat []
  | l@(_ :: rest) => leadsWith pat l || containsSub pat rest

/-- Case-insensitive substring test for the `/area/i`-style regex tests in
`getMeta`: `k` matches when `pat` (lowercase) occurs inside the lowercased
`k`. -/
def matchesPat (pat k : String) : Bool :=
  containsSub pat.data (lowerStr k).data

/-- JS `s || <default>` for a string-or-null value. -/
def jsOr (v : Option String) (d : String) : String :=
  if jsTruthy v then v.getD "" else d

/-- JS `s || null` for a string-or-null value (`""` collapses to null). -/
def jsOrNull (v : Option String) : Option String :=
  if jsTruthy v then v else none

/-- JS `n || <default>` for a number-or-null value (`0` is falsy). -/
def natOr (v : Option Nat) (d : Nat) : Nat :=
  match v with
  | some n => if n = 0 then d else n
  | none => d

/-- Outcome of a call into an external service: a returned value, or a
thrown exception. -/
inductive ExtResult (α : Type)
  | ok (a : α)
  | threw
deriving DecidableEq, Repr

/-- A query embedding vector (contents are opaque to this core: the code
only tests the value for truthiness and forwards it to the store). -/
def Vec := List Int
deriving DecidableEq, Repr

/-- The JSON object returned by the external numeric-extraction call of the
`sum_area`/`sum_volume` handlers; each field may be absent. The handlers
trust these values, substituting zero/empty defaults (`|| 0`, `|| "..."`). -/
structure GeminiNumeric where
  total : Option ℚ
  count : Option Nat
  unit : Option String
  notes : Option String
deriving DecidableEq, Repr

/-- The result object a task handler returns (`kind`-discriminated in JS).
For `list` the source projects a fixed column set of each matching row;
the model keeps the matching rows themselves, which determines that
projection. -/
inductive TaskResult
  | count (n : Nat)
  | distinct (field : String) (values : List String)
  | group_count (field : String) (rows : List (String × Nat))
  | sum_area (key : String) (total : ℚ) (n : Nat) (unit notes : String)
  | sum_volume (key : String) (total : ℚ) (n : Nat) (unit notes : String)
  | list (docs : List Element)
deriving DecidableEq, Repr

/-- Descending insertion for the `ORDER BY count DESC` model. -/
def insertByCountDesc (x : String × Nat) : List (String × Nat) → List (String × Nat)
  | [] => [x]
  | y :: ys => if y.2 < x.2 then x :: y :: ys else y :: insertByCountDesc x ys

/-- Model of the store's `ORDER BY count DESC` (ties keep relative order;
the source leaves tie order to the store). -/
def sortByCountDesc (l : List (String × Nat)) : List (String × Nat) :=
  l.foldr insertByCountDesc []

/-- `SELECT DISTINCT <field> ... WHERE <where> AND <field> IS NOT NULL`:
the distinct non-NULL values of a field over the matching rows. -/
def sqlDistinctField (db : List Element) (clauses : List Clause) (params : List String)
    (field : String) : List String :=
  dedupFirst ((matchingRows db clauses params).filterMap (fun e => getCol e field))

/-- `SELECT <field>, COUNT(*) ... GROUP BY <field> ORDER BY count DESC`
over the matching rows with `<field> IS NOT NULL`. -/
def sqlGroupCount (db : List Element) (clauses : List Clause) (params : List String)
    (field : String) : List (String × Nat) :=
  let vals := (matchingRows db clauses params).filterMap (fun e => getCol e field)
  sortByCountDesc ((dedupFirst vals).map (fun v => (v, vals.count v)))

/-- `SELECT DISTINCT <field> FROM elements WHERE urn = ? AND <field> IS NOT
NULL AND <field> != ''` — the per-column distinct-values query `getMeta`
issues for categories and parameter samples. -/
def sqlDistinctColNonEmpty (db : List Element) (urn field : String) : List String :=
  dedupFirst (((db.filter (fun e => e.urn == urn)).filterMap (fun e => getCol e field)).filter
    (fun s => s ≠ ""))

/-- Metadata discovered for one model (`getMeta`'s return value). -/
structure ModelMeta where
  categoryField : String
  categories : List String
  paramSamples : List (String × List String)
  areaKeys : List String
  volumeKeys : List String
deriving DecidableEq, Repr

/-- The property-blob key scan of `getMeta`: walk each element's
`props_flat`, skip falsy (NULL/empty) blobs, `JSON.parse` the rest — a
malformed document makes `JSON.parse` throw, which aborts the scan — and
collect keys matching `/area/i` and `/volume/i` into insertion-ordered
sets. -/
def scanBlobKeys : List (Option PropsBlob) → List String → List String →
    Except String (List String × List String)
  | [], areaAcc, volAcc => .ok (areaAcc, volAcc)
  | none :: rest, a, v => scanBlobKeys rest a v
  | some .malformed :: _, _, _ => .error "SyntaxError: Unexpected token in JSON"
  | some (.wellformed pairs) :: rest, a, v =>
      let ks := pairs.map Prod.fst
      scanBlobKeys rest ((ks.filter (matchesPat "area")).foldl insertNew a)
        ((ks.filter (matchesPat "volume")).foldl insertNew v)

/-- The guard both variants place on the attribute filter clause:
`plan.filterParam && plan.filterValue !== undefined && plan.filterValue
!== null && String(plan.filterValue).trim() !== ""`. -/
def filterValueGuard (filterParam filterValue : Option String) : Bool :=
  jsTruthy filterParam &&
    (match filterValue with
     | some v => jsTrim v ≠ ""
     | none => false)

namespace VariantB

/-- The raw JSON object returned by the unified analysis LLM call
(variant B); every field is untrusted and may be absent. -/
structure Analysis where
  intent : Option String
  task : Option String
  category : Option String
  filterParam : Option String
  filterValue : Option String
  targetParam : Option String
  propsFlatKey : Option String
  notes : Option String
deriving DecidableEq, Repr

/-- The validated query plan (variant B). -/
structure QueryPlan where
  urn : String
  intent : String
  task : String
  category : Option String
  filterParam : Option String
  filterValue : Option String
  targetParam : Option String
  propsFlatKey : Option String
  notes : String
deriving DecidableEq, Repr

/-- `validateAndBuildPlan(analysis, urn, availableCategories)` (variant B):
resolve the category exactly, then case-insensitively, else null; null out
`filterParam`/`targetParam` not in `ALLOWED_PARAMS`; default `task` to
`"count"` and `intent` to `"bim"`. -/
def validateAndBuildPlan (analysis : Analysis) (urn : String)
    (availableCategories : List String) : QueryPlan :=
  let category : Option String :=
    if jsTruthy analysis.category then
      let normalizedCategory := norm analysis.category
      match availableCategories.find? (fun c => c == normalizedCategory) with
      | some exactMatch => some exactMatch
      | none =>
          match availableCategories.find?
              (fun c => lowerStr c == lowerStr normalizedCategory) with
          | some caseMatch => some caseMatch
          | none => none
    else none
  let filterParam0 := jsOrNull analysis.filterParam
  let targetParam0 := jsOrNull analysis.targetParam
  let filterParam :=
    if jsTruthy filterParam0 && !(ALLOWED_PARAMS.contains (filterParam0.getD "")) then none
    else filterParam0
  let targetParam :=
    if jsTruthy targetParam0 && !(ALLOWED_PARAMS.contains (targetParam0.getD "")) then none
    else targetParam0
  { urn := urn
    intent := jsOr analysis.intent "bim"
    task := jsOr analysis.task "count"
    category := category
    filterParam := filterParam
    filterValue := analysis.filterValue
    targetParam := targetParam
    propsFlatKey := jsOrNull analysis.propsFlatKey
    notes := jsOr analysis.notes "" }

/-- The WHERE-clause construction of variant B's `runQuery`: mandatory
`urn = ?`, then `<categoryField> = ?` when the (re-normalized) category is
truthy, then `<filterParam> = ?` when `filterParam` is truthy and
`filterValue` is non-null and non-blank after trimming. -/
def buildWhere (categoryField : String) (plan : QueryPlan) : List Clause × List String :=
  let category := if jsTruthy plan.category then some (norm plan.category) else none
  let catCl : List Clause :=
    match category with
    | some _ => [Clause.catEq categoryField]
    | none => []
  let catPs : List String :=
    match category with
    | some c => [c]
    | none => []
  let attrCl : List Clause :=
    if filterValueGuard plan.filterParam plan.filterValue then
      [Clause.attrEq (plan.filterParam.getD "")]
    else []
  let attrPs : List String :=
    if filterValueGuard plan.filterParam plan.filterValue then [plan.filterValue.getD ""]
    else []
  ([Clause.urnEq] ++ catCl ++ attrCl, [plan.urn] ++ catPs ++ attrPs)

/-- Variant B `handleCountTask`. -/
def handleCountTask (db : List Element) (clauses : List Clause) (params : List String) :
    TaskResult :=
  .count (matchingRows db clauses params).length

/-- Variant B `handleDistinctTask` (no LIMIT in this variant): throws when
`field` is falsy; otherwise the distinct non-NULL values, normalized
(`norm`) and with blanks dropped. -/
def handleDistinctTask (db : List Element) (clauses : List Clause) (params : List String)
    (field : Option String) : Except String TaskResult :=
  if jsTruthy field then
    let f := field.getD ""
    let values := ((sqlDistinctField db clauses params f).map (fun s => jsTrim s)).filter
      (fun s => s ≠ "")
    .ok (.distinct f values)
  else .error "distinct requires targetParam"

/-- Variant B `handleGroupCountTask` (no LIMIT in this variant). -/
def handleGroupCountTask (db : List Element) (clauses : List Clause) (params : List String)
    (field : Option String) : Except String TaskResult :=
  if jsTruthy field then
    let f := field.getD ""
    .ok (.group_count f (sqlGroupCount db clauses params f))
  else .error "group_count requires targetParam"

/-- Variant B `handleSumAreaTask`: requires a truthy `propsFlatKey`; the
external numeric-extraction response `ext` is trusted with zero/empty
defaults. -/
def handleSumAreaTask (plan : QueryPlan) (ext : GeminiNumeric) : Except String TaskResult :=
  if jsTruthy plan.propsFlatKey then
    .ok (.sum_area (plan.propsFlatKey.getD "") (ext.total.getD 0) (ext.count.getD 0)
      (jsOr ext.unit "m²") (jsOr ext.notes ""))
  else .error "sum_area requires propsFlatKey"

/-- Variant B `handleSumVolumeTask`: `propsFlatKey` defaults to
`"Dimensions.Volume"`, so this handler never throws. -/
def handleSumVolumeTask (plan : QueryPlan) (ext : GeminiNumeric) : Except String TaskResult :=
  .ok (.sum_volume (jsOr plan.propsFlatKey "Dimensions.Volume") (ext.total.getD 0)
    (ext.count.getD 0) (jsOr ext.unit "m³") (jsOr ext.notes ""))

/-- Variant B `handleListTask` (no LIMIT in this variant). -/
def handleListTask (db : List Element) (clauses : List Clause) (params : List String) :
    TaskResult :=
  .list (matchingRows db clauses params)

/-- Variant B `runQuery`: build the WHERE clause, then dispatch on
`plan.task`; every unlisted task (including `"list"`) falls through to the
list handler. `ext` stands for the response of the external
numeric-extraction call made by the sum handlers. -/
def runQuery (db : List Element) (categoryField : String) (plan : QueryPlan)
    (ext : GeminiNumeric) : Except String TaskResult :=
  let clauses := (buildWhere categoryField plan).1
  let params := (buildWhere categoryField plan).2
  if plan.task = "count" then .ok (handleCountTask db clauses params)
  else if plan.task = "distinct" then handleDistinctTask db clauses params plan.targetParam
  else if plan.task = "group_count" then handleGroupCountTask db clauses params plan.targetParam
  else if plan.task = "sum_area" then handleSumAreaTask plan ext
  else if plan.task = "sum_volume" then handleSumVolumeTask plan ext
  else .ok (handleListTask db clauses params)

/-- Variant B `getMeta`: categories and per-field samples from distinct
non-NULL, non-empty column values, plus the area/volume key scan over every
element's property blob. A malformed blob makes the scan — and hence
discovery — throw. -/
def getMeta (db : List Element) (urn : String) : Except String ModelMeta :=
  let categories := stripEmpty (sqlDistinctColNonEmpty db urn "component_type")
  let paramSamples := SAMPLE_KEYS.map
    (fun k => (k, stripEmpty (sqlDistinctColNonEmpty db urn k)))
  let docs := (db.filter (fun e => e.urn == urn)).map (fun e => e.props_flat)
  match scanBlobKeys docs [] [] with
  | .error e => .error e
  | .ok (areaKeys, volumeKeys) =>
      .ok { categoryField := "component_type"
            categories := categories
            paramSamples := paramSamples
            areaKeys := areaKeys
            volumeKeys := volumeKeys }

end VariantB

namespace VariantA

/-- Raw output of the Step-1 (intent) LLM call. -/
structure Plan1 where
  intent : Option String
  task : Option String
  category : Option String
  limit : Option Nat
  notes : Option String
deriving DecidableEq, Repr

/-- Raw output of the Step-2 (parameters) LLM call. -/
structure Plan2 where
  useSemanticSearch : Option Bool
  semanticQuery : Option String
  topK : Option Nat
  filterParam : Option String
  filterValue : Option String
  targetParam : Option String
  propsFlatKey : Option String
  limit : Option Nat
deriving DecidableEq, Repr

/-- The query plan of variant A. -/
structure QueryPlan where
  urn : String
  intent : String
  task : String
  category : Option String
  limit : Nat
  filterParam : Option String
  filterValue : Option String
  targetParam : Option String
  propsFlatKey : Option String
  useSemanticSearch : Bool
  semanticQuery : Option String
  topK : Nat
  notes : String
deriving DecidableEq, Repr

/-- `buildQueryPlan(plan1, plan2, urn, category)` (variant A): merge the
two LLM outputs with `||`/`??` defaulting. -/
def buildQueryPlan (plan1 : Plan1) (plan2 : Plan2) (urn : String)
    (category : Option String) : QueryPlan :=
  { urn := urn
    intent := "bim"
    task := jsOr plan1.task "count"
    category := category
    limit := natOr plan2.limit (natOr plan1.limit DEFAULT_LIMIT)
    filterParam := jsOrNull plan2.filterParam
    filterValue := plan2.filterValue
    targetParam := jsOrNull plan2.targetParam
    propsFlatKey := jsOrNull plan2.propsFlatKey
    useSemanticSearch := plan2.useSemanticSearch.getD false
    semanticQuery := jsOrNull plan2.semanticQuery
    topK := natOr plan2.topK DEFAULT_TOP_K
    notes := jsOr plan1.notes "" }

/-- `validatePlanParams(plan)` (variant A): null out a truthy
`filterParam`/`targetParam` that is not in `ALLOWED_PARAMS`. -/
def validatePlanParams (plan : QueryPlan) : QueryPlan :=
  { plan with
    filterParam :=
      if jsTruthy plan.filterParam &&
          !(ALLOWED_PARAMS.contains (plan.filterParam.getD "")) then none
      else plan.filterParam
    targetParam :=
      if jsTruthy plan.targetParam &&
          !(ALLOWED_PARAMS.contains (plan.targetParam.getD "")) then none
      else plan.targetParam }

/-- The candidate-id restriction of variant A's `runQuery`. The semantic
path runs only when the plan asks for it with a truthy query string; its
two external calls are modelled by their outcomes `embedRes` (the
embedding, or `.ok none` for a null/empty embedding — the external
interface is `embed(text) -> vector | null`) and `searchRes` (the id
list). Any thrown error is caught and any falsy embedding skips the
search, each leaving the restriction null. -/
def semanticCandidates (plan : QueryPlan) (embedRes : ExtResult (Option Vec))
    (searchRes : ExtResult (List Int)) : Option (List Int) :=
  if plan.useSemanticSearch && jsTruthy plan.semanticQuery then
    match embedRes with
    | .threw => none
    | .ok none => none
    | .ok (some _) =>
        match searchRes with
        | .threw => none
        | .ok ids => some ids
  else none

/-- The WHERE-clause construction of variant A's `runQuery`: `urn = ?`,
then `id IN (...)` when a non-empty candidate set was produced, then the
category and attribute clauses exactly as in variant B. -/
def buildWhere (categoryField : String) (plan : QueryPlan)
    (candidateIds : Option (List Int)) : List Clause × List String :=
  let category := if jsTruthy plan.category then some (norm plan.category) else none
  let idCl : List Clause :=
    match candidateIds with
    | some ids => if ids.length > 0 then [Clause.idIn ids] else []
    | none => []
  let catCl : List Clause :=
    match category with
    | some _ => [Clause.catEq categoryField]
    | none => []
  let catPs : List String :=
    match category with
    | some c => [c]
    | none => []
  let attrCl : List Clause :=
    if filterValueGuard plan.filterParam plan.filterValue then
      [Clause.attrEq (plan.filterParam.getD "")]
    else []
  let attrPs : List String :=
    if filterValueGuard plan.filterParam plan.filterValue then [plan.filterValue.getD ""]
    else []
  ([Clause.urnEq] ++ idCl ++ catCl ++ attrCl, [plan.urn] ++ catPs ++ attrPs)

/-- Variant A `handleCountTask`. -/
def handleCountTask (db : List Element) (clauses : List Clause) (params : List String) :
    TaskResult :=
  .count (matchingRows db clauses params).length

/-- Variant A `handleDistinctTask` (`LIMIT ?` bound to the plan limit). -/
def handleDistinctTask (db : List Element) (clauses : List Clause) (params : List String)
    (field : Option String) (limit : Nat) : Except String TaskResult :=
  if jsTruthy field then
    let f := field.getD ""
    let values := (((sqlDistinctField db clauses params f).take limit).map
      (fun s => jsTrim s)).filter (fun s => s ≠ "")
    .ok (.distinct f values)
  else .error "distinct requires targetParam"

/-- Variant A `handleGroupCountTask` (`LIMIT ?`). -/
def handleGroupCountTask (db : List Element) (clauses : List Clause) (params : List String)
    (field : Option String) (limit : Nat) : Except String TaskResult :=
  if jsTruthy field then
    let f := field.getD ""
    .ok (.group_count f ((sqlGroupCount db clauses params f).take limit))
  else .error "group_count requires targetParam"

/-- Variant A `handleSumAreaTask`: requires a truthy `propsFlatKey`. -/
def handleSumAreaTask (plan : QueryPlan) (ext : GeminiNumeric) : Except String TaskResult :=
  if jsTruthy plan.propsFlatKey then
    .ok (.sum_area (plan.propsFlatKey.getD "") (ext.total.getD 0) (ext.count.getD 0)
      (jsOr ext.unit "m²") (jsOr ext.notes ""))
  else .error "sum_area requires propsFlatKey"

/-- Variant A `handleListTask` (`LIMIT ?`). -/
def handleListTask (db : List Element) (clauses : List Clause) (params : List String)
    (limit : Nat) : TaskResult :=
  .list ((matchingRows db clauses params).take limit)

/-- Variant A `runQuery`: semantic candidate restriction, WHERE-clause
construction, then dispatch on `plan.task`. There is no `sum_volume` case
in this variant; it and every other unlisted task (including `"list"`)
fall through to the list handler. -/
def runQuery (db : List Element) (categoryField : String) (plan : QueryPlan)
    (embedRes : ExtResult (Option Vec)) (searchRes : ExtResult (List Int))
    (ext : GeminiNumeric) : Except String TaskResult :=
  let limit := plan.limit
  let candidateIds := semanticCandidates plan embedRes searchRes
  let clauses := (buildWhere categoryField plan candidateIds).1
  let params := (buildWhere categoryField plan candidateIds).2
  if plan.task = "count" then .ok (handleCountTask db clauses params)
  else if plan.task = "distinct" then
    handleDistinctTask db clauses params plan.targetParam limit
  else if plan.task = "group_count" then
    handleGroupCountTask db clauses params plan.targetParam limit
  else if plan.task = "sum_area" then handleSumAreaTask plan ext
  else .ok (handleListTask db clauses params limit)

/-- The category-backfill step of variant A's route handler:
`let category = plan1.category ? norm(plan1.category) : null;` followed by
`if (!category && hintCategory && meta.categories.includes(hintCategory))
category = hintCategory;`. -/
def resolveFinalCategory (plan1Category hintCategory : Option String)
    (categories : List String) : Option String :=
  let category : Option String :=
    if jsTruthy plan1Category then some (norm plan1Category) else none
  let categoryFalsy : Bool :=
    match category with
    | none => true
    | some s => s = ""
  if categoryFalsy && jsTruthy hintCategory &&
      categories.contains (hintCategory.getD "") then
    hintCategory
  else category

end VariantA

/-! ## General lemmas about the embedding -/

theorem insertNew_nodup (acc : List String) (x : String) (h : acc.Nodup) :
    (insertNew acc x).Nodup := by
  unfold insertNew
  split
  · exact h
  · next hx => simp [List.nodup_append, h, hx]

theorem mem_insertNew {acc : List String} {x y : String} (h : y ∈ insertNew acc x) :
    y ∈ acc ∨ y = x := by
  unfold insertNew at h
  split at h
  · exact Or.inl h
  · simpa using h

theorem foldl_insertNew_nodup (l : List String) (acc : List String) (h : acc.Nodup) :
    (l.foldl insertNew acc).Nodup := by
  induction l generalizing acc with
  | nil => exact h
  | cons x xs ih => exact ih _ (insertNew_nodup acc x h)

theorem mem_foldl_insertNew {l acc : List String} {y : String}
    (h : y ∈ l.foldl insertNew acc) : y ∈ acc ∨ y ∈ l := by
  induction l generalizing acc with
  | nil => exact Or.inl h
  | cons x xs ih =>
      rcases ih h with h' | h'
      · rcases mem_insertNew h' with h'' | h''
        · exact Or.inl h''
        · exact Or.inr (by simp [h''])
      · exact Or.inr (List.mem_cons_of_mem _ h')

theorem dedupFirst_nodup (l : List String) : (dedupFirst l).Nodup :=
  foldl_insertNew_nodup l [] List.nodup_nil

theorem dedupFirst_subset {l : List String} {y : String} (h : y ∈ dedupFirst l) : y ∈ l := by
  rcases mem_foldl_insertNew h with h' | h'
  · simp at h'
  · exact h'

/-- The clause list variant A's `runQuery` builds, written as one explicit
concatenation. -/
theorem buildWhereA_clauses (cf : String) (plan : VariantA.QueryPlan)
    (cand : Option (List Int)) :
    (VariantA.buildWhere cf plan cand).1 =
      [Clause.urnEq] ++
      (match cand with
       | some ids => if ids.length > 0 then [Clause.idIn ids] else []
       | none => []) ++
      (if jsTruthy plan.category then [Clause.catEq cf] else []) ++
      (if filterValueGuard plan.filterParam plan.filterValue then
        [Clause.attrEq (plan.filterParam.getD "")]
       else []) := by
  unfold VariantA.buildWhere
  by_cases hc : jsTruthy plan.category <;> simp [hc]

/-- The clause list variant B's `runQuery` builds, written as one explicit
concatenation. -/
theorem buildWhereB_clauses (cf : String) (plan : VariantB.QueryPlan) :
    (VariantB.buildWhere cf plan).1 =
      [Clause.urnEq] ++
      (if jsTruthy plan.category then [Clause.catEq cf] else []) ++
      (if filterValueGuard plan.filterParam plan.filterValue then
        [Clause.attrEq (plan.filterParam.getD "")]
       else []) := by
  unfold VariantB.buildWhere
  by_cases hc : jsTruthy plan.category <;> simp [hc]

/-- If the attribute-equality clause for `g` is in variant A's compiled
WHERE clause, then the plan's `filterParam` is exactly `g`. -/
theorem attrEq_mem_buildWhereA {cf : String} {plan : VariantA.QueryPlan}
    {cand : Option (List Int)} {g : String}
    (h : Clause.attrEq g ∈ (VariantA.buildWhere cf plan cand).1) :
    plan.filterParam = some g ∧ g ≠ "" := by
  rw [buildWhereA_clauses] at h
  simp only [List.mem_append, List.mem_singleton] at h
  rcases h with ((h | h) | h) | h
  · exact absurd h (by simp)
  · rcases cand with _ | ids
    · simp at h
    · by_cases hl : ids.length > 0 <;> simp [hl] at h
  · by_cases hc : jsTruthy plan.category <;> simp [hc] at h
  · by_cases hg : filterValueGuard plan.filterParam plan.filterValue
    · simp only [hg, if_true, List.mem_singleton] at h
      have hfp : jsTruthy plan.filterParam := by
        unfold filterValueGuard at hg
        exact (Bool.and_eq_true ..).mp hg |>.1
      rcases hp : plan.filterParam with _ | s
      · rw [hp] at hfp; simp [jsTruthy] at hfp
      · rw [hp] at hfp h
        simp [jsTruthy] at hfp
        simp at h
        cases h
        exact ⟨rfl, hfp⟩
    · simp [hg] at h

/-- A truthy `filterParam` surviving variant A's `validatePlanParams` is in
the allow-list. -/
theorem validatePlanParams_filterParam_allowed {plan : VariantA.QueryPlan} {g : String}
    (hg : (VariantA.validatePlanParams plan).filterParam = some g) (hne : g ≠ "") :
    g ∈ ALLOWED_PARAMS := by
  unfold VariantA.validatePlanParams at hg
  simp only [] at hg
  split at hg
  · exact absurd hg (by simp)
  · next hcond =>
      rw [hg] at hcond
      simp [jsTruthy, hne] at hcond
      simpa using hcond

/-! ## C1 -/

/-- C1: for every raw plan (the step-2 LLM output fed through
`buildQueryPlan` and `validatePlanParams`) whose `filterParam` (or
`targetParam`) is the non-null string `f` outside `ALLOWED_PARAMS`, the
validated plan has that field nulled, and the compiled WHERE clause
carries no attribute-equality clause for `f`. -/
theorem c1_disallowed_param_nulled_and_unfiltered
    (plan1 : VariantA.Plan1) (plan2 : VariantA.Plan2) (urn : String)
    (category : Option String) (categoryField : String)
    (candidateIds : Option (List Int)) (f : String)
    (hf : f ∉ ALLOWED_PARAMS) :
    (plan2.filterParam = some f →
      (VariantA.validatePlanParams (VariantA.buildQueryPlan plan1 plan2 urn category)).filterParam
        = none) ∧
    (plan2.targetParam = some f →
      (VariantA.validatePlanParams (VariantA.buildQueryPlan plan1 plan2 urn category)).targetParam
        = none) ∧
    Clause.attrEq f ∉
      (VariantA.buildWhere categoryField
        (VariantA.validatePlanParams (VariantA.buildQueryPlan plan1 plan2 urn category))
        candidateIds).1 := by
  have hcont : ALLOWED_PARAMS.contains f = false := by simpa using hf
  refine ⟨?_, ?_, ?_⟩
  · intro hp
    by_cases hf0 : f = ""
    · subst hf0
      simp [VariantA.validatePlanParams, VariantA.buildQueryPlan, jsOrNull, jsTruthy, hp]
    · simp [VariantA.validatePlanParams, VariantA.buildQueryPlan, jsOrNull, jsTruthy, hp,
        hf0, hcont]
      exact hf
  · intro hp
    by_cases hf0 : f = ""
    · subst hf0
      simp [VariantA.validatePlanParams, VariantA.buildQueryPlan, jsOrNull, jsTruthy, hp]
    · simp [VariantA.validatePlanParams, VariantA.buildQueryPlan, jsOrNull, jsTruthy, hp,
        hf0, hcont]
      exact hf
  · intro hmem
    obtain ⟨hfp, hne⟩ := attrEq_mem_buildWhereA hmem
    exact hf (validatePlanParams_filterParam_allowed hfp hne)

/-- Witness for C1 at a concrete injection attempt. -/
theorem c1_disallowed_param_nulled_and_unfiltered_witness :
    ("name; DROP TABLE elements--" ∉ ALLOWED_PARAMS) ∧
    ((VariantA.validatePlanParams (VariantA.buildQueryPlan
        { intent := some "bim", task := some "count", category := none, limit := none,
          notes := none }
        { useSemanticSearch := none, semanticQuery := none, topK := none,
          filterParam := some "name; DROP TABLE elements--", filterValue := some "x",
          targetParam := some "name; DROP TABLE elements--", propsFlatKey := none,
          limit := none }
        "urn1" none)).filterParam = none) ∧
    Clause.attrEq "name; DROP TABLE elements--" ∉
      (VariantA.buildWhere "component_type"
        (VariantA.validatePlanParams (VariantA.buildQueryPlan
          { intent := some "bim", task := some "count", category := none, limit := none,
            notes := none }
          { useSemanticSearch := none, semanticQuery := none, topK := none,
            filterParam := some "name; DROP TABLE elements--", filterValue := some "x",
            targetParam := some "name; DROP TABLE elements--", propsFlatKey := none,
            limit := none }
          "urn1" none))
        none).1 := by
  have h := c1_disallowed_param_nulled_and_unfiltered
    { intent := some "bim", task := some "count", category := none, limit := none,
      notes := none }
    { useSemanticSearch := none, semanticQuery := none, topK := none,
      filterParam := some "name; DROP TABLE elements--", filterValue := some "x",
      targetParam := some "name; DROP TABLE elements--", propsFlatKey := none,
      limit := none }
    "urn1" none "component_type" none "name; DROP TABLE elements--" (by decide)
  exact ⟨by decide, h.1 rfl, h.2.2⟩

/-! ## C2 -/

/-- C2 counterexample: two validated plans that differ only in
`filterValue` (one non-blank, one null) compile to different SQL filter
texts — the guard on the attribute clause makes the clause's presence
depend on the value. -/
theorem c2_counterexample :
    (VariantB.validateAndBuildPlan
        { intent := some "bim", task := some "count", category := none,
          filterParam := some "room_name", filterValue := none,
          targetParam := none, propsFlatKey := none, notes := none } "u" ["Doors"]
      = { VariantB.validateAndBuildPlan
            { intent := some "bim", task := some "count", category := none,
              filterParam := some "room_name", filterValue := some "A",
              targetParam := none, propsFlatKey := none, notes := none } "u" ["Doors"]
          with filterValue := none }) ∧
    whereText (VariantB.buildWhere "component_type"
        (VariantB.validateAndBuildPlan
          { intent := some "bim", task := some "count", category := none,
            filterParam := some "room_name", filterValue := some "A",
            targetParam := none, propsFlatKey := none, notes := none } "u" ["Doors"])).1
      ≠ whereText (VariantB.buildWhere "component_type"
        (VariantB.validateAndBuildPlan
          { intent := some "bim", task := some "count", category := none,
            filterParam := some "room_name", filterValue := none,
            targetParam := none, propsFlatKey := none, notes := none } "u" ["Doors"])).1 := by
  constructor
  · decide
  · decide

/-- C2 amended: for validated plans differing only in `filterValue`, if the
two values agree on the non-blank emission guard (`filterValueGuard`), the
compiled SQL filter text is identical in both variants — the value itself
is only ever bound as a parameter, never interpolated into the text. -/
theorem c2_amended_filter_text_independent_of_value
    (pB : VariantB.QueryPlan) (pA : VariantA.QueryPlan) (cand : Option (List Int))
    (cf : String) (v1 v2 : Option String)
    (hB : filterValueGuard pB.filterParam v1 = filterValueGuard pB.filterParam v2)
    (hA : filterValueGuard pA.filterParam v1 = filterValueGuard pA.filterParam v2) :
    whereText (VariantB.buildWhere cf { pB with filterValue := v1 }).1 =
      whereText (VariantB.buildWhere cf { pB with filterValue := v2 }).1 ∧
    whereText (VariantA.buildWhere cf { pA with filterValue := v1 } cand).1 =
      whereText (VariantA.buildWhere cf { pA with filterValue := v2 } cand).1 := by
  constructor
  · rw [buildWhereB_clauses, buildWhereB_clauses]
    dsimp only
    rw [hB]
  · rw [buildWhereA_clauses, buildWhereA_clauses]
    dsimp only
    rw [hA]

/-- Witness for the amended C2 at concrete plans and values. -/
theorem c2_amended_filter_text_independent_of_value_witness :
    whereText (VariantB.buildWhere "component_type"
        { urn := "u", intent := "bim", task := "count", category := some "Doors",
          filterParam := some "room_name", filterValue := some "Kitchen",
          targetParam := none, propsFlatKey := none, notes := "" }).1 =
      whereText (VariantB.buildWhere "component_type"
        { urn := "u", intent := "bim", task := "count", category := some "Doors",
          filterParam := some "room_name", filterValue := some "Lobby",
          targetParam := none, propsFlatKey := none, notes := "" }).1 := by
  have h := c2_amended_filter_text_independent_of_value
    { urn := "u", intent := "bim", task := "count", category := some "Doors",
      filterParam := some "room_name", filterValue := some "Kitchen",
      targetParam := none, propsFlatKey := none, notes := "" }
    { urn := "u", intent := "bim", task := "count", category := none, limit := 20,
      filterParam := some "room_name", filterValue := some "Kitchen",
      targetParam := none, propsFlatKey := none, useSemanticSearch := false,
      semanticQuery := none, topK := 100, notes := "" }
    none "component_type" (some "Kitchen") (some "Lobby") (by decide) (by decide)
  exact h.1

/-! ## C3 -/

/-- C3: a raw category that is no exact member of `availableCategories`
but matches one case-insensitively resolves to exactly the canonical-cased
member (the first case-insensitive match, which is in the list and agrees
with it up to case). -/
theorem c3_category_case_insensitive_fix
    (analysis : VariantB.Analysis) (urn : String) (cats : List String) (canonical : String)
    (htruthy : jsTruthy analysis.category = true)
    (hnotexact : norm analysis.category ∉ cats)
    (hcase : cats.find? (fun c => lowerStr c == lowerStr (norm analysis.category))
      = some canonical) :
    (VariantB.validateAndBuildPlan analysis urn cats).category = some canonical ∧
      canonical ∈ cats ∧ lowerStr canonical = lowerStr (norm analysis.category) := by
  have hexact : cats.find? (fun c => c == norm analysis.category) = none := by
    rw [List.find?_eq_none]
    intro x hx
    simp only [beq_iff_eq]
    intro h
    exact hnotexact (h ▸ hx)
  have hmem := List.mem_of_find?_eq_some hcase
  have hlow := List.find?_some hcase
  refine ⟨?_, hmem, by simpa using hlow⟩
  unfold VariantB.validateAndBuildPlan
  simp only [htruthy, if_true, hexact, hcase]

/-- Witness for C3: input category `"doors"` with `"Doors"` available
resolves to `"Doors"`. -/
theorem c3_category_case_insensitive_fix_witness :
    (VariantB.validateAndBuildPlan
      { intent := some "bim", task := some "count", category := some "doors",
        filterParam := none, filterValue := none, targetParam := none,
        propsFlatKey := none, notes := none } "u" ["Walls", "Doors"]).category
      = some "Doors" :=
  (c3_category_case_insensitive_fix
    { intent := some "bim", task := some "count", category := some "doors",
      filterParam := none, filterValue := none, targetParam := none,
      propsFlatKey := none, notes := none }
    "u" ["Walls", "Doors"] "Doors" (by decide) (by decide) (by decide)).1

/-! ## C4 -/

/-- C4: a truthy raw category that matches no available category even
case-insensitively is nulled; the compiled filter carries no
category-equality clause; and (for the defaulted `"count"` task) the query
still executes, returning the count of the rows matching the remaining
filter — no error is raised. -/
theorem c4_unmatched_category_runs_unfiltered
    (analysis : VariantB.Analysis) (urn : String) (cats : List String)
    (db : List Element) (ext : GeminiNumeric)
    (htruthy : jsTruthy analysis.category = true)
    (hnone : ∀ c ∈ cats, lowerStr c ≠ lowerStr (norm analysis.category)) :
    (VariantB.validateAndBuildPlan analysis urn cats).category = none ∧
    (∀ f, Clause.catEq f ∉
      (VariantB.buildWhere "component_type"
        (VariantB.validateAndBuildPlan analysis urn cats)).1) ∧
    (jsTruthy analysis.task = false →
      VariantB.runQuery db "component_type" (VariantB.validateAndBuildPlan analysis urn cats)
          ext
        = .ok (.count (matchingRows db
            (VariantB.buildWhere "component_type"
              (VariantB.validateAndBuildPlan analysis urn cats)).1
            (VariantB.buildWhere "component_type"
              (VariantB.validateAndBuildPlan analysis urn cats)).2).length)) := by
  have hexact : cats.find? (fun c => c == norm analysis.category) = none := by
    rw [List.find?_eq_none]
    intro x hx
    simp only [beq_iff_eq]
    intro h
    exact hnone x hx (by rw [h])
  have hcase : cats.find? (fun c => lowerStr c == lowerStr (norm analysis.category))
      = none := by
    rw [List.find?_eq_none]
    intro x hx
    simpa using hnone x hx
  have hcat : (VariantB.validateAndBuildPlan analysis urn cats).category = none := by
    unfold VariantB.validateAndBuildPlan
    simp only [htruthy, if_true, hexact, hcase]
  refine ⟨hcat, ?_, ?_⟩
  · intro f hmem
    rw [buildWhereB_clauses] at hmem
    rw [hcat] at hmem
    simp only [jsTruthy, if_false, List.append_nil, List.nil_append] at hmem
    rcases List.mem_append.mp hmem with h | h
    · simp at h
    · by_cases hg : filterValueGuard
          (VariantB.validateAndBuildPlan analysis urn cats).filterParam
          (VariantB.validateAndBuildPlan analysis urn cats).filterValue <;>
        simp [hg] at h
  · intro htask
    have htask' : (VariantB.validateAndBuildPlan analysis urn cats).task = "count" := by
      unfold VariantB.validateAndBuildPlan
      simp [jsOr, htask]
    unfold VariantB.runQuery
    rw [htask']
    simp [VariantB.handleCountTask]

/-- Witness for C4: category `"Doorz"` against available `["Doors"]`. -/
theorem c4_unmatched_category_runs_unfiltered_witness :
    (VariantB.validateAndBuildPlan
      { intent := some "bim", task := none, category := some "Doorz",
        filterParam := none, filterValue := none, targetParam := none,
        propsFlatKey := none, notes := none } "u" ["Doors"]).category = none ∧
    VariantB.runQuery [] "component_type"
      (VariantB.validateAndBuildPlan
        { intent := some "bim", task := none, category := some "Doorz",
          filterParam := none, filterValue := none, targetParam := none,
          propsFlatKey := none, notes := none } "u" ["Doors"])
      ⟨none, none, none, none⟩ = .ok (.count 0) := by
  have h := c4_unmatched_category_runs_unfiltered
    { intent := some "bim", task := none, category := some "Doorz",
      filterParam := none, filterValue := none, targetParam := none,
      propsFlatKey := none, notes := none }
    "u" ["Doors"] [] ⟨none, none, none, none⟩ (by decide) (by decide)
  refine ⟨h.1, ?_⟩
  rw [h.2.2 (by decide)]
  rfl

/-! ## C5 -/

/-- C5: the claim says a malformed `props_flat` blob on one element is
skipped silently and discovery still returns the remaining metadata. The
code has no try/catch around `JSON.parse`, so discovery aborts: on a model
whose second element carries a malformed blob, `getMeta` throws, while the
same model without that element yields full metadata — the behavior the
claim (and the spec's error policy) requires for the three-element model
as well. -/
theorem c5_malformed_blob_aborts_getMeta :
    VariantB.getMeta
      [ { id := 1, urn := "u", cols := [("component_type", some "Doors")],
          props_flat := some (.wellformed [("Dimensions.Area", "12.5")]) },
        { id := 2, urn := "u", cols := [], props_flat := some .malformed },
        { id := 3, urn := "u", cols := [],
          props_flat := some (.wellformed [("Dimensions.Volume", "3")]) } ]
      "u" = .error "SyntaxError: Unexpected token in JSON" ∧
    VariantB.getMeta
      [ { id := 1, urn := "u", cols := [("component_type", some "Doors")],
          props_flat := some (.wellformed [("Dimensions.Area", "12.5")]) },
        { id := 3, urn := "u", cols := [],
          props_flat := some (.wellformed [("Dimensions.Volume", "3")]) } ]
      "u" = .ok
        { categoryField := "component_type"
          categories := ["Doors"]
          paramSamples := SAMPLE_KEYS.map (fun k => (k, []))
          areaKeys := ["Dimensions.Area"]
          volumeKeys := ["Dimensions.Volume"] } := by
  constructor
  · rfl
  · rfl

/-! ## C6 -/

/-- C6: a `distinct` or `group_count` plan with a null `targetParam` makes
`runQuery` throw the missing-target-parameter contract error (surfaced as a
request failure by the route's catch); with a non-null target an empty
matching set yields a valid empty result, not an error. -/
theorem c6_target_param_contract
    (db : List Element) (cf : String) (plan : VariantA.QueryPlan)
    (e : ExtResult (Option Vec)) (s : ExtResult (List Int)) (ext : GeminiNumeric)
    (htask : plan.task = "distinct" ∨ plan.task = "group_count") :
    (plan.targetParam = none →
      VariantA.runQuery db cf plan e s ext
        = .error (plan.task ++ " requires targetParam")) ∧
    (∀ f, plan.targetParam = some f → f ≠ "" →
      matchingRows db
          (VariantA.buildWhere cf plan (VariantA.semanticCandidates plan e s)).1
          (VariantA.buildWhere cf plan (VariantA.semanticCandidates plan e s)).2 = [] →
      VariantA.runQuery db cf plan e s ext
        = .ok (if plan.task = "distinct" then .distinct f [] else .group_count f [])) := by
  rcases htask with ht | ht
  · constructor
    · intro htp
      unfold VariantA.runQuery
      rw [ht]
      simp [VariantA.handleDistinctTask, htp, jsTruthy]
    · intro f htp hne hmatch
      unfold VariantA.runQuery
      rw [ht]
      simp [VariantA.handleDistinctTask, htp, jsTruthy, hne, sqlDistinctField, hmatch,
        dedupFirst]
  · constructor
    · intro htp
      unfold VariantA.runQuery
      rw [ht]
      simp [VariantA.handleGroupCountTask, htp, jsTruthy]
    · intro f htp hne hmatch
      unfold VariantA.runQuery
      rw [ht]
      simp [VariantA.handleGroupCountTask, htp, jsTruthy, hne, sqlGroupCount, hmatch,
        dedupFirst, sortByCountDesc]

/-- Witness for C6: a null-target `distinct` plan errors; the same plan
with target `"type_name"` over an empty store returns the empty distinct
result. -/
theorem c6_target_param_contract_witness :
    VariantA.runQuery [] "component_type"
      { urn := "u", intent := "bim", task := "distinct", category := none, limit := 20,
        filterParam := none, filterValue := none, targetParam := none,
        propsFlatKey := none, useSemanticSearch := false, semanticQuery := none,
        topK := 100, notes := "" }
      (.ok none) (.ok []) ⟨none, none, none, none⟩
      = .error "distinct requires targetParam" ∧
    VariantA.runQuery [] "component_type"
      { urn := "u", intent := "bim", task := "distinct", category := none, limit := 20,
        filterParam := none, filterValue := none, targetParam := some "type_name",
        propsFlatKey := none, useSemanticSearch := false, semanticQuery := none,
        topK := 100, notes := "" }
      (.ok none) (.ok []) ⟨none, none, none, none⟩
      = .ok (.distinct "type_name" []) := by
  constructor
  · exact (c6_target_param_contract [] "component_type"
      { urn := "u", intent := "bim", task := "distinct", category := none, limit := 20,
        filterParam := none, filterValue := none, targetParam := none,
        propsFlatKey := none, useSemanticSearch := false, semanticQuery := none,
        topK := 100, notes := "" }
      (.ok none) (.ok []) ⟨none, none, none, none⟩ (Or.inl rfl)).1 rfl
  · have h := (c6_target_param_contract [] "component_type"
      { urn := "u", intent := "bim", task := "distinct", category := none, limit := 20,
        filterParam := none, filterValue := none, targetParam := some "type_name",
        propsFlatKey := none, useSemanticSearch := false, semanticQuery := none,
        topK := 100, notes := "" }
      (.ok none) (.ok []) ⟨none, none, none, none⟩ (Or.inl rfl)).2 "type_name" rfl
      (by decide) (by decide)
    simpa using h

/-! ## C7 -/

/-- C7: when the embedding call throws, returns a null/empty embedding, or
the similarity search throws, the candidate restriction stays null, no
`id IN` clause is compiled, and the whole query behaves exactly as the
unrestricted query with semantic search disabled. -/
theorem c7_semantic_failure_unrestricted
    (db : List Element) (cf : String) (plan : VariantA.QueryPlan)
    (e : ExtResult (Option Vec)) (s : ExtResult (List Int)) (ext : GeminiNumeric)
    (hfail : e = .threw ∨ e = .ok none ∨ s = .threw) :
    VariantA.semanticCandidates plan e s = none ∧
    (∀ ids, Clause.idIn ids ∉
      (VariantA.buildWhere cf plan (VariantA.semanticCandidates plan e s)).1) ∧
    VariantA.runQuery db cf plan e s ext =
      VariantA.runQuery db cf { plan with useSemanticSearch := false }
        (.ok none) (.ok []) ext := by
  have hc : VariantA.semanticCandidates plan e s = none := by
    rcases hfail with h | h | h
    · subst h
      cases hcond : (plan.useSemanticSearch && jsTruthy plan.semanticQuery) <;>
        simp [VariantA.semanticCandidates, hcond]
    · subst h
      cases hcond : (plan.useSemanticSearch && jsTruthy plan.semanticQuery) <;>
        simp [VariantA.semanticCandidates, hcond]
    · subst h
      rcases e with a | _
      · rcases a with _ | v <;>
          cases hcond : (plan.useSemanticSearch && jsTruthy plan.semanticQuery) <;>
            simp [VariantA.semanticCandidates, hcond]
      · cases hcond : (plan.useSemanticSearch && jsTruthy plan.semanticQuery) <;>
          simp [VariantA.semanticCandidates, hcond]
  have hc2 : VariantA.semanticCandidates { plan with useSemanticSearch := false }
      (.ok none) (.ok []) = none := by
    simp [VariantA.semanticCandidates]
  refine ⟨hc, ?_, ?_⟩
  · intro ids hmem
    rw [buildWhereA_clauses, hc] at hmem
    simp only [List.append_assoc, List.mem_append, List.mem_singleton] at hmem
    rcases hmem with h | h | h | h
    · simp at h
    · simp at h
    · by_cases hcat : jsTruthy plan.category <;> simp [hcat] at h
    · by_cases hg : filterValueGuard plan.filterParam plan.filterValue <;> simp [hg] at h
  · unfold VariantA.runQuery
    rw [hc, hc2]
    rfl

/-- Witness for C7 at a concrete failing embedding call. -/
theorem c7_semantic_failure_unrestricted_witness :
    VariantA.runQuery [] "component_type"
      { urn := "u", intent := "bim", task := "count", category := some "Doors",
        limit := 20, filterParam := none, filterValue := none, targetParam := none,
        propsFlatKey := none, useSemanticSearch := true,
        semanticQuery := some "structural components", topK := 100, notes := "" }
      .threw (.ok [1, 2]) ⟨none, none, none, none⟩
      = VariantA.runQuery [] "component_type"
        { urn := "u", intent := "bim", task := "count", category := some "Doors",
          limit := 20, filterParam := none, filterValue := none, targetParam := none,
          propsFlatKey := none, useSemanticSearch := false,
          semanticQuery := some "structural components", topK := 100, notes := "" }
        (.ok none) (.ok []) ⟨none, none, none, none⟩ :=
  (c7_semantic_failure_unrestricted [] "component_type"
    { urn := "u", intent := "bim", task := "count", category := some "Doors",
      limit := 20, filterParam := none, filterValue := none, targetParam := none,
      propsFlatKey := none, useSemanticSearch := true,
      semanticQuery := some "structural components", topK := 100, notes := "" }
    .threw (.ok [1, 2]) ⟨none, none, none, none⟩ (Or.inl rfl)).2.2

/-! ## C8 -/

/-- C8 counterexample: two stored `type_name` values `"a"` and `" a"` are
distinct raw values, so `SELECT DISTINCT` returns both; after `norm`
trimming the returned list is `["a", "a"]` — a duplicate, contradicting
the claim that the values list contains no duplicates. -/
theorem c8_counterexample :
    VariantA.runQuery
      [ { id := 1, urn := "u", cols := [("type_name", some "a")], props_flat := none },
        { id := 2, urn := "u", cols := [("type_name", some " a")], props_flat := none } ]
      "component_type"
      { urn := "u", intent := "bim", task := "distinct", category := none, limit := 20,
        filterParam := none, filterValue := none, targetParam := some "type_name",
        propsFlatKey := none, useSemanticSearch := false, semanticQuery := none,
        topK := 100, notes := "" }
      (.ok none) (.ok []) ⟨none, none, none, none⟩
      = .ok (.distinct "type_name" ["a", "a"]) ∧
    ¬ (["a", "a"] : List String).Nodup := by
  constructor
  · rfl
  · decide

/-- C8 amended: every returned value is the trimmed form of some raw
distinct field value and is non-blank; the list is duplicate-free whenever
no two distinct raw values share a trimmed form (the code deduplicates
before trimming, so raw values differing only in surrounding whitespace
can still produce duplicates). -/
theorem c8_amended_distinct_values
    (db : List Element) (cf : String) (plan : VariantA.QueryPlan)
    (e : ExtResult (Option Vec)) (s : ExtResult (List Int)) (ext : GeminiNumeric)
    (f : String)
    (htask : plan.task = "distinct") (htp : plan.targetParam = some f) (hne : f ≠ "") :
    ∃ values, VariantA.runQuery db cf plan e s ext = .ok (.distinct f values) ∧
      (∀ v ∈ values, v ≠ "" ∧ ∃ r ∈ (matchingRows db
          (VariantA.buildWhere cf plan (VariantA.semanticCandidates plan e s)).1
          (VariantA.buildWhere cf plan (VariantA.semanticCandidates plan e s)).2).filterMap
            (fun x => getCol x f), v = jsTrim r) ∧
      ((∀ x ∈ (matchingRows db
          (VariantA.buildWhere cf plan (VariantA.semanticCandidates plan e s)).1
          (VariantA.buildWhere cf plan (VariantA.semanticCandidates plan e s)).2).filterMap
            (fun x => getCol x f),
        ∀ y ∈ (matchingRows db
          (VariantA.buildWhere cf plan (VariantA.semanticCandidates plan e s)).1
          (VariantA.buildWhere cf plan (VariantA.semanticCandidates plan e s)).2).filterMap
            (fun x => getCol x f),
          jsTrim x = jsTrim y → x = y) → values.Nodup) := by
  refine ⟨(((sqlDistinctField db
      (VariantA.buildWhere cf plan (VariantA.semanticCandidates plan e s)).1
      (VariantA.buildWhere cf plan (VariantA.semanticCandidates plan e s)).2 f).take
        plan.limit).map (fun r => jsTrim r)).filter (fun r => r ≠ ""), ?_, ?_, ?_⟩
  · unfold VariantA.runQuery
    rw [htask, htp]
    simp [VariantA.handleDistinctTask, jsTruthy, hne]
  · intro v hv
    rw [List.mem_filter] at hv
    obtain ⟨hv1, hv2⟩ := hv
    refine ⟨by simpa using hv2, ?_⟩
    obtain ⟨r, hr, hrv⟩ := List.mem_map.mp hv1
    exact ⟨r, dedupFirst_subset (List.mem_of_mem_take hr), hrv.symm⟩
  · intro hinj
    apply List.Nodup.filter
    apply List.Nodup.map_on
    · intro x hx y hy hxy
      exact hinj x (dedupFirst_subset (List.mem_of_mem_take hx))
        y (dedupFirst_subset (List.mem_of_mem_take hy)) hxy
    · exact List.Nodup.sublist (List.take_sublist _ _)
        (dedupFirst_nodup _)

/-! ## C9 -/

/-- C9 counterexample: with intent-step category `" "` (truthy, so the
intent step did return a category) and hint `"Doors"` present in the
category set, the backfill fires anyway: the final category is the hint,
not the returned category — contradicting "when the intent step returned a
category, the hint is never applied". -/
theorem c9_counterexample :
    VariantA.resolveFinalCategory (some " ") (some "Doors") ["Doors"] = some "Doors" ∧
    jsTruthy (some " ") = true ∧
    norm (some " ") = "" := by
  refine ⟨rfl, rfl, rfl⟩

/-- C9 amended: the hint backfills exactly when the intent-step category
normalizes to blank (null, empty, or whitespace-only) and the hint is a
truthy member of the discovered category set; a category that is non-blank
after trimming is never overridden by the hint. -/
theorem c9_amended_backfill_guard (p1cat hint : Option String) (cats : List String) :
    (norm p1cat ≠ "" →
      VariantA.resolveFinalCategory p1cat hint cats = some (norm p1cat)) ∧
    (norm p1cat = "" → jsTruthy hint = true → (hint.getD "") ∈ cats →
      VariantA.resolveFinalCategory p1cat hint cats = hint) ∧
    (norm p1cat = "" → (jsTruthy hint = false ∨ (hint.getD "") ∉ cats) →
      VariantA.resolveFinalCategory p1cat hint cats =
        (if jsTruthy p1cat then some (norm p1cat) else none)) := by
  refine ⟨?_, ?_, ?_⟩
  · intro h
    have htr : jsTruthy p1cat = true := by
      rcases p1cat with _ | t
      · exact absurd rfl h
      · rcases ht : t == "" with _ | _
        · simp [jsTruthy]
          intro h0
          rw [h0] at ht
          simp at ht
        · have : t = "" := by simpa using ht
          subst this
          exact absurd rfl h
    unfold VariantA.resolveFinalCategory
    simp [htr, h]
  · intro h hh hmem
    have hcont : cats.contains (hint.getD "") = true := by simpa using hmem
    by_cases htr : jsTruthy p1cat = true
    · unfold VariantA.resolveFinalCategory
      simp [htr, h, hh, hcont]
      intro hx
      exact absurd hmem hx
    · unfold VariantA.resolveFinalCategory
      simp only [Bool.not_eq_true] at htr
      simp [htr, hh, hcont]
      intro hx
      exact absurd hmem hx
  · intro h hdisj
    by_cases htr : jsTruthy p1cat = true
    · unfold VariantA.resolveFinalCategory
      rcases hdisj with hd | hd
      · simp [htr, h, hd]
      · have hcont : cats.contains (hint.getD "") = false := by simpa using hd
        simp [htr, h, hcont]
        intro hh2 hmem2
        exact absurd hmem2 hd
    · unfold VariantA.resolveFinalCategory
      simp only [Bool.not_eq_true] at htr
      rcases hdisj with hd | hd
      · simp [htr, hd]
      · have hcont : cats.contains (hint.getD "") = false := by simpa using hd
        simp [htr, hcont]
        intro hh2 hmem2
        exact absurd hmem2 hd

/-- Witness for the amended C9: a null intent category takes the member
hint; a non-blank intent category is never overridden. -/
theorem c9_amended_backfill_guard_witness :
    VariantA.resolveFinalCategory none (some "Doors") ["Doors"] = some "Doors" ∧
    VariantA.resolveFinalCategory (some "Walls") (some "Doors") ["Doors"]
      = some "Walls" := by
  constructor
  · exact (c9_amended_backfill_guard none (some "Doors") ["Doors"]).2.1 rfl rfl
      (by decide)
  · have h := (c9_amended_backfill_guard (some "Walls") (some "Doors") ["Doors"]).1
      (by decide)
    have hn : norm (some "Walls") = "Walls" := rfl
    rw [hn] at h
    exact h

/-! ## C10 -/

/-- C10: any task that is not one of the explicit dispatch cases —
`"list"` itself, arbitrary strings, and in the semantic-search variant
even `"sum_volume"` — is executed by the list handler; no task value
produces an unknown-task error in either variant. -/
theorem c10_unlisted_tasks_fall_to_list
    (db : List Element) (cf : String) (pA : VariantA.QueryPlan) (pB : VariantB.QueryPlan)
    (e : ExtResult (Option Vec)) (s : ExtResult (List Int)) (ext : GeminiNumeric)
    (hA : pA.task ∉ (["count", "distinct", "group_count", "sum_area"] : List String))
    (hB : pB.task ∉
      (["count", "distinct", "group_count", "sum_area", "sum_volume"] : List String)) :
    VariantA.runQuery db cf pA e s ext
      = .ok (VariantA.handleListTask db
          (VariantA.buildWhere cf pA (VariantA.semanticCandidates pA e s)).1
          (VariantA.buildWhere cf pA (VariantA.semanticCandidates pA e s)).2 pA.limit) ∧
    VariantB.runQuery db cf pB ext
      = .ok (VariantB.handleListTask db (VariantB.buildWhere cf pB).1
          (VariantB.buildWhere cf pB).2) := by
  simp only [List.mem_cons, List.not_mem_nil, not_or, or_false] at hA hB
  obtain ⟨h1, h2, h3, h4⟩ := hA
  obtain ⟨g1, g2, g3, g4, g5⟩ := hB
  constructor
  · unfold VariantA.runQuery
    simp [h1, h2, h3, h4]
  · unfold VariantB.runQuery
    simp [g1, g2, g3, g4, g5]

/-- Witness for C10: `"sum_volume"` in the semantic-search variant and
`"list"` in the unified variant both run the list handler. -/
theorem c10_unlisted_tasks_fall_to_list_witness :
    VariantA.runQuery [] "component_type"
      { urn := "u", intent := "bim", task := "sum_volume", category := none, limit := 20,
        filterParam := none, filterValue := none, targetParam := none,
        propsFlatKey := none, useSemanticSearch := false, semanticQuery := none,
        topK := 100, notes := "" }
      (.ok none) (.ok []) ⟨none, none, none, none⟩
      = .ok (.list []) ∧
    VariantB.runQuery [] "component_type"
      { urn := "u", intent := "bim", task := "list", category := none,
        filterParam := none, filterValue := none, targetParam := none,
        propsFlatKey := none, notes := "" }
      ⟨none, none, none, none⟩ = .ok (.list []) := by
  have h := c10_unlisted_tasks_fall_to_list [] "component_type"
    { urn := "u", intent := "bim", task := "sum_volume", category := none, limit := 20,
      filterParam := none, filterValue := none, targetParam := none,
      propsFlatKey := none, useSemanticSearch := false, semanticQuery := none,
      topK := 100, notes := "" }
    { urn := "u", intent := "bim", task := "list", category := none,
      filterParam := none, filterValue := none, targetParam := none,
      propsFlatKey := none, notes := "" }
    (.ok none) (.ok []) ⟨none, none, none, none⟩ (by decide) (by decide)
  exact ⟨h.1.trans rfl, h.2.trans rfl⟩

/-- Witness for the amended C8 at a concrete store and plan. -/
theorem c8_amended_distinct_values_witness :
    ∃ values, VariantA.runQuery
      [ { id := 1, urn := "u", cols := [("type_name", some "Door A")],
          props_flat := none } ]
      "component_type"
      { urn := "u", intent := "bim", task := "distinct", category := none,
        limit := 20, filterParam := none, filterValue := none,
        targetParam := some "type_name", propsFlatKey := none,
        useSemanticSearch := false, semanticQuery := none, topK := 100,
        notes := "" }
      (.ok none) (.ok []) ⟨none, none, none, none⟩
      = .ok (.distinct "type_name" values) ∧
      (∀ v ∈ values, v ≠ "" ∧ ∃ r ∈ (matchingRows
        [ { id := 1, urn := "u", cols := [("type_name", some "Door A")],
            props_flat := none } ]
        (VariantA.buildWhere "component_type"
          { urn := "u", intent := "bim", task := "distinct", category := none,
            limit := 20, filterParam := none, filterValue := none,
            targetParam := some "type_name", propsFlatKey := none,
            useSemanticSearch := false, semanticQuery := none, topK := 100,
            notes := "" }
          (VariantA.semanticCandidates
            { urn := "u", intent := "bim", task := "distinct", category := none,
              limit := 20, filterParam := none, filterValue := none,
              targetParam := some "type_name", propsFlatKey := none,
              useSemanticSearch := false, semanticQuery := none, topK := 100,
              notes := "" }
            (.ok none) (.ok []))).1
        (VariantA.buildWhere "component_type"
          { urn := "u", intent := "bim", task := "distinct", category := none,
            limit := 20, filterParam := none, filterValue := none,
            targetParam := some "type_name", propsFlatKey := none,
            useSemanticSearch := false, semanticQuery := none, topK := 100,
            notes := "" }
          (VariantA.semanticCandidates
            { urn := "u", intent := "bim", task := "distinct", category := none,
              limit := 20, filterParam := none, filterValue := none,
              targetParam := some "type_name", propsFlatKey := none,
              useSemanticSearch := false, semanticQuery := none, topK := 100,
              notes := "" }
            (.ok none) (.ok []))).2).filterMap (fun x => getCol x "type_name"),
        v = jsTrim r) ∧
      ((∀ x ∈ (matchingRows
        [ { id := 1, urn := "u", cols := [("type_name", some "Door A")],
            props_flat := none } ]
        (VariantA.buildWhere "component_type"
          { urn := "u", intent := "bim", task := "distinct", category := none,
            limit := 20, filterParam := none, filterValue := none,
            targetParam := some "type_name", propsFlatKey := none,
            useSemanticSearch := false, semanticQuery := none, topK := 100,
            notes := "" }
          (VariantA.semanticCandidates
            { urn := "u", intent := "bim", task := "distinct", category := none,
              limit := 20, filterParam := none, filterValue := none,
              targetParam := some "type_name", propsFlatKey := none,
              useSemanticSearch := false, semanticQuery := none, topK := 100,
              notes := "" }
            (.ok none) (.ok []))).1
        (VariantA.buildWhere "component_type"
          { urn := "u", intent := "bim", task := "distinct", category := none,
            limit := 20, filterParam := none, filterValue := none,
            targetParam := some "type_name", propsFlatKey := none,
            useSemanticSearch := false, semanticQuery := none, topK := 100,
            notes := "" }
          (VariantA.semanticCandidates
            { urn := "u", intent := "bim", task := "distinct", category := none,
              limit := 20, filterParam := none, filterValue := none,
              targetParam := some "type_name", propsFlatKey := none,
              useSemanticSearch := false, semanticQuery := none, topK := 100,
              notes := "" }
            (.ok none) (.ok []))).2).filterMap (fun x => getCol x "type_name"),
        ∀ y ∈ (matchingRows
        [ { id := 1, urn := "u", cols := [("type_name", some "Door A")],
            props_flat := none } ]
        (VariantA.buildWhere "component_type"
          { urn := "u", intent := "bim", task := "distinct", category := none,
            limit := 20, filterParam := none, filterValue := none,
            targetParam := some "type_name", propsFlatKey := none,
            useSemanticSearch := false, semanticQuery := none, topK := 100,
            notes := "" }
          (VariantA.semanticCandidates
            { urn := "u", intent := "bim", task := "distinct", category := none,
              limit := 20, filterParam := none, filterValue := none,
              targetParam := some "type_name", propsFlatKey := none,
              useSemanticSearch := false, semanticQuery := none, topK := 100,
              notes := "" }
            (.ok none) (.ok []))).1
        (VariantA.buildWhere "component_type"
          { urn := "u", intent := "bim", task := "distinct", category := none,
            limit := 20, filterParam := none, filterValue := none,
            targetParam := some "type_name", propsFlatKey := none,
            useSemanticSearch := false, semanticQuery := none, topK := 100,
            notes := "" }
          (VariantA.semanticCandidates
            { urn := "u", intent := "bim", task := "distinct", category := none,
              limit := 20, filterParam := none, filterValue := none,
              targetParam := some "type_name", propsFlatKey := none,
              useSemanticSearch := false, semanticQuery := none, topK := 100,
              notes := "" }
            (.ok none) (.ok []))).2).filterMap (fun x => getCol x "type_name"),
          jsTrim x = jsTrim y → x = y) → values.Nodup) :=
  c8_amended_distinct_values
    [ { id := 1, urn := "u", cols := [("type_name", some "Door A")],
        props_flat := none } ]
    "component_type"
    { urn := "u", intent := "bim", task := "distinct", category := none,
      limit := 20, filterParam := none, filterValue := none,
      targetParam := some "type_name", propsFlatKey := none,
      useSemanticSearch := false, semanticQuery := none, topK := 100,
      notes := "" }
    (.ok none) (.ok []) ⟨none, none, none, none⟩ "type_name" rfl rfl (by decide)
